import Mathlib

/-!
Shallow embedding of the tool-invocation engine in src/agent_tools.py.

Python values crossing the pipeline are modelled by an inductive type
PyVal (floats never occur in the claims and are omitted); dicts are
insertion-ordered association lists; the external library function
json.loads and the external tool callables and guardrail callables are
parameters of the model.  Exceptions that escape the engine are modelled
by an Except layer on the public entry points.
-/

namespace AgentTools

/-- A Python value as it flows through the engine.  Dicts are
insertion-ordered association lists; bytes and bytearray values are kept
as their byte lists. -/
inductive PyVal where
  | none
  | bool (b : Bool)
  | int (n : Int)
  | str (s : String)
  | bytes (bs : List Nat)
  | list (xs : List PyVal)
  | dict (d : List (String × PyVal))

/-- A Python dict of string keys, in insertion order. -/
abbrev PyDict := List (String × PyVal)

/-- Python d.get(k) / d[k]: the value at the first (unique) occurrence of k. -/
def dGet {α : Type} (d : List (String × α)) (k : String) : Option α :=
  match d with
  | [] => Option.none
  | (k1, v1) :: rest => if k1 = k then some v1 else dGet rest k

/-- Python d[k] = v: replace in place when the key is present, else append. -/
def dSet {α : Type} (d : List (String × α)) (k : String) (v : α) :
    List (String × α) :=
  match d with
  | [] => [(k, v)]
  | (k1, v1) :: rest =>
      if k1 = k then (k, v) :: rest else (k1, v1) :: dSet rest k v

/-- Python d.pop(k, None): remove the entry for k when present. -/
def dPop {α : Type} (d : List (String × α)) (k : String) :
    List (String × α) :=
  match d with
  | [] => []
  | (k1, v1) :: rest =>
      if k1 = k then rest else (k1, v1) :: dPop rest k

/-- Python (k in d). -/
def dMember {α : Type} (d : List (String × α)) (k : String) : Bool :=
  match d with
  | [] => false
  | (k1, _) :: rest => if k1 = k then true else dMember rest k

/-- The whitespace characters stripped by Python str.strip() (ASCII part;
the claims involve only ASCII payloads). -/
def pyIsSpace (c : Char) : Bool :=
  c = ' ' || c = '\t' || c = '\n' || c = '\r' || c = '\x0b' || c = '\x0c'

/-- Python str.strip() on a character list. -/
def pyStripList (l : List Char) : List Char :=
  ((l.dropWhile pyIsSpace).reverse.dropWhile pyIsSpace).reverse

/-- Python str.strip(). -/
def pyStrip (s : String) : String := String.mk (pyStripList s.data)

/-- Python str.lstrip(hyphen): drop every leading minus sign. -/
def pyLStripDash (s : String) : String :=
  String.mk (s.data.dropWhile (fun c => c = '-'))

/-- Python str.isdigit(): nonempty and all digits (ASCII digits; non-ASCII
digit forms never appear in the claims). -/
def pyIsDigitStr (s : String) : Bool :=
  !s.data.isEmpty && s.data.all Char.isDigit

/-- Python str.lower() (ASCII). -/
def pyLower (s : String) : String := String.mk (s.data.map Char.toLower)

/-- Numeric value of a digit list. -/
def digitsVal (l : List Char) : Nat :=
  l.foldl (fun a c => a * 10 + (c.toNat - '0'.toNat)) 0

/-- A single-quote character as a string (used by the int() error text). -/
def sq : String := String.mk ['\'']

/-- The ValueError text produced by CPython int() on a bad literal. -/
def invalidLiteralMsg (s : String) : String :=
  "invalid literal for int() with base 10: " ++ sq ++ s ++ sq

/-- Modelled from CPython int(str): strips whitespace, accepts an optional
sign followed by ASCII digits, otherwise raises ValueError.  Underscore
digit grouping and non-ASCII digits are not modelled: the only call site
in this file reaches int() after an isdigit() filter that excludes them. -/
def pyIntOfString (s : String) : Except String Int :=
  let t := pyStripList s.data
  match t with
  | '-' :: rest =>
      if !rest.isEmpty && rest.all Char.isDigit then
        Except.ok (-(digitsVal rest : Int))
      else Except.error (invalidLiteralMsg s)
  | '+' :: rest =>
      if !rest.isEmpty && rest.all Char.isDigit then
        Except.ok (digitsVal rest : Int)
      else Except.error (invalidLiteralMsg s)
  | _ =>
      if !t.isEmpty && t.all Char.isDigit then
        Except.ok (digitsVal t : Int)
      else Except.error (invalidLiteralMsg s)

/-- ToolContext from src/agent_tools.py: immutable request identity. -/
structure ToolContext where
  trace_id : String
  user_id : Option String := Option.none

/-- ToolSpec from src/agent_tools.py: schema mapping argument names to
type tags, plus optional defaults.  Mappings are insertion-ordered
association lists, matching Python dict iteration order. -/
structure ToolSpec where
  schema : List (String × String)
  defaults : Option (List (String × PyVal)) := Option.none

/-- EngineConfig from src/agent_tools.py.  The async_timeout_s field is
wall-clock time; whether an attempt of a tool body exceeds it is modelled
by the slow field of FunctionTool below, so the numeric value itself does
not appear in the model. -/
structure EngineConfig where
  max_retries : Nat := 1
  enable_cache : Bool := true

/-- TraceEvent from src/agent_tools.py: an event name with a payload. -/
structure TraceEvent where
  name : String
  payload : PyDict

/-- ToolResult from src/agent_tools.py.  output defaults to None and
error_message to None, exactly as the Python dataclass defaults. -/
structure ToolResult where
  tool_name : String
  ok : Bool
  output : PyVal := PyVal.none
  error_message : Option String := Option.none
  attempts : Nat := 0
  cached : Bool := false

/-- Outcome of one execution of a tool body (the external callable):
a returned value, a raised ValueError, a raised RetryableToolError, or
any other raised exception carried with its str(). -/
inductive BodyOutcome where
  | ret (v : PyVal)
  | valueError (m : String)
  | retryable (m : String)
  | exn (m : String)

/-- FunctionTool from src/agent_tools.py.  The external callable is
modelled by its behaviour: fn gives the body outcome of the i-th attempt
of one call (attempts are numbered from 1) on the coerced arguments, and
slow says whether the i-th attempt exceeds async_timeout_s, which is
observable only through asyncio.wait_for on the asynchronous path. -/
structure FunctionTool where
  name : String
  spec : ToolSpec
  fn : Nat → PyDict → BodyOutcome
  slow : Nat → PyDict → Bool

/-- Registry from src/agent_tools.py: built as a dict comprehension keyed
by tool name (a later tool with the same name overwrites an earlier one),
then looked up; an absent name raises KeyError, modelled as none. -/
def regGet (tools : List FunctionTool) (name : String) : Option FunctionTool :=
  tools.reverse.find? (fun t => t.name == name)

/-- Outcome of one guardrail callable: return (pass), raise GuardrailError,
or raise any other exception carried with its str(). -/
inductive GuardOutcome where
  | pass
  | guardrailError (m : String)
  | exn (m : String)

/-- A guardrail callable, modelled by its behaviour on (ctx, tool name, data). -/
abbrev Guard := ToolContext → String → PyVal → GuardOutcome

/-- The for-loop over a guardrail list: run each in order until one raises. -/
def runGuardList (gs : List Guard) (ctx : ToolContext) (tname : String)
    (data : PyVal) : GuardOutcome :=
  match gs with
  | [] => GuardOutcome.pass
  | g :: rest =>
      match g ctx tname data with
      | GuardOutcome.pass => runGuardList rest ctx tname data
      | o => o

/-- Python isinstance(v, int): true for bools as well, since bool is a
subclass of int in Python. -/
def isInstInt : PyVal → Bool
  | PyVal.bool _ => true
  | PyVal.int _ => true
  | _ => false

/-- One schema entry of Engine._coerce: coerce the value v present under
key k against type tag t, or raise ValueError (the error string is the
str() of the raised exception). -/
def coerceKey (k t : String) (v : PyVal) : Except String PyVal :=
  if t = "int" then
    if isInstInt v then Except.ok v
    else
      match v with
      | PyVal.str s =>
          if pyIsDigitStr (pyLStripDash (pyStrip s)) then
            (pyIntOfString (pyStrip s)).map PyVal.int
          else Except.error ("bad_int:" ++ k)
      | _ => Except.error ("bad_int:" ++ k)
  else if t = "bool" then
    match v with
    | PyVal.bool _ => Except.ok v
    | PyVal.str s =>
        if pyLower (pyStrip s) = "true" then Except.ok (PyVal.bool true)
        else if pyLower (pyStrip s) = "false" then Except.ok (PyVal.bool false)
        else Except.error ("bad_bool:" ++ k)
    | _ => Except.error ("bad_bool:" ++ k)
  else if t = "str" then
    match v with
    | PyVal.str _ => Except.ok v
    | _ => Except.error ("bad_str:" ++ k)
  else Except.error ("bad_type:" ++ k)

/-- The defaults pass of Engine._coerce: out = dict(d), then each default
is inserted when its key is absent (defaults never override the caller). -/
def applyDefaults (defaults : List (String × PyVal)) (d : PyDict) : PyDict :=
  defaults.foldl (fun o kv => if dMember o kv.1 then o else dSet o kv.1 kv.2) d

/-- The schema pass of Engine._coerce: keys absent from the input are
skipped, present keys are coerced in schema order. -/
def coerceSchema (schema : List (String × String)) (o : PyDict) :
    Except String PyDict :=
  match schema with
  | [] => Except.ok o
  | (k, t) :: rest =>
      match dGet o k with
      | Option.none => coerceSchema rest o
      | some v =>
          match coerceKey k t v with
          | Except.error e => Except.error e
          | Except.ok v1 => coerceSchema rest (dSet o k v1)

/-- Engine._coerce from src/agent_tools.py. -/
def coerce (spec : ToolSpec) (d : PyDict) : Except String PyDict :=
  coerceSchema spec.schema (applyDefaults (spec.defaults.getD []) d)

/-- Python (x is True) applied to the result of d.get(k). -/
def isTrueMarker (o : Option PyVal) : Bool :=
  match o with
  | some (PyVal.bool true) => true
  | _ => false

/-- Engine._norm from src/agent_tools.py, rules tried in source order. -/
def norm (tool_name : String) (out : PyVal) (raw : String) : PyVal :=
  match out with
  | PyVal.none => PyVal.str "null"
  | PyVal.bytes bs =>
      PyVal.dict [("type", PyVal.str "bytes"), ("len", PyVal.int bs.length)]
  | PyVal.dict d =>
      if isTrueMarker (dGet d "_echo_raw") then
        PyVal.dict (dSet d "raw" (PyVal.str raw))
      else if isTrueMarker (dGet d "_wrap") then
        PyVal.dict [("tool", PyVal.str tool_name),
                    ("data", PyVal.dict (dPop d "_wrap"))]
      else PyVal.dict d
  | v => v

/-- The external library function json.loads, a parameter of the model:
it returns a decoded value or raises (the error string is str(e)). -/
abbrev JsonLoads := String → Except String PyVal

/-- Insertion sort on strings, modelling Python sorted() on str keys
(both orders are the lexicographic order on code points). -/
def insertStr (s : String) (l : List String) : List String :=
  match l with
  | [] => [s]
  | x :: rest => if s ≤ x then s :: x :: rest else x :: insertStr s rest

/-- Python sorted() on a list of strings. -/
def sortStrings (l : List String) : List String :=
  match l with
  | [] => []
  | x :: rest => insertStr x (sortStrings rest)

/-- An event whose payload only carries the tool name. -/
def tnEv (n tname : String) : TraceEvent :=
  { name := n, payload := [("tool_name", PyVal.str tname)] }

/-- The args.parse.fail event. -/
def parseFailEv (tname e : String) : TraceEvent :=
  { name := "args.parse.fail",
    payload := [("tool_name", PyVal.str tname), ("err", PyVal.str e)] }

/-- The args.parse.ok event: payload carries sorted(a.keys()). -/
def parseOkEv (tname : String) (a : PyDict) : TraceEvent :=
  { name := "args.parse.ok",
    payload := [("tool_name", PyVal.str tname),
                ("keys", PyVal.list ((sortStrings (a.map Prod.fst)).map PyVal.str))] }

/-- Engine._parse_and_coerce from src/agent_tools.py: resolve JSON args and
coerce them to the tool schema; Sum.inl is the failure ToolResult, Sum.inr
the argument dict; the second component is the trace emitted. -/
def parseAndCoerce (jl : JsonLoads) (name : String) (raw : String)
    (tool : Option FunctionTool) : Sum ToolResult PyDict × List TraceEvent :=
  let ename := match tool with
    | some t => t.name
    | Option.none => name
  let res : Except String PyDict :=
    match (if pyStrip raw = "" then Except.ok (PyVal.dict []) else jl raw) with
    | Except.error e => Except.error e
    | Except.ok p =>
        match p with
        | PyVal.dict d =>
            match tool with
            | some t => coerce t.spec d
            | Option.none => Except.ok d
        | _ => Except.error "args_not_object"
  match res with
  | Except.error e =>
      (Sum.inl { tool_name := ename, ok := false,
                 error_message := some ("bad_args:" ++ e) },
       [parseFailEv ename e])
  | Except.ok a => (Sum.inr a, [parseOkEv ename a])

/-- The mutable state of an Engine instance: its configuration together
with the cache it exclusively owns (registry and guardrail lists are
read-only collaborators passed alongside). -/
structure Engine where
  reg : List FunctionTool
  cfg : EngineConfig
  inG : List Guard
  outG : List Guard
  cache : List ((String × String) × PyVal)

/-- Cache lookup by exact (tool name, raw string) key. -/
def cacheLookup (c : List ((String × String) × PyVal)) (k : String × String) :
    Option PyVal :=
  match c with
  | [] => Option.none
  | (k1, v1) :: rest => if k1 = k then some v1 else cacheLookup rest k

/-- Cache assignment: replace in place when the key is present, else append. -/
def cacheSet (c : List ((String × String) × PyVal)) (k : String × String)
    (v : PyVal) : List ((String × String) × PyVal) :=
  match c with
  | [] => [(k, v)]
  | (k1, v1) :: rest =>
      if k1 = k then (k, v) :: rest else (k1, v1) :: cacheSet rest k v

/-- Engine._check_cache from src/agent_tools.py. -/
def checkCache (e : Engine) (tool : FunctionTool) (raw : String) :
    Option ToolResult × List TraceEvent :=
  if e.cfg.enable_cache then
    match cacheLookup e.cache (tool.name, raw) with
    | some v =>
        (some { tool_name := tool.name, ok := true, output := v, cached := true },
         [tnEv "cache.hit" tool.name])
    | Option.none => (Option.none, [tnEv "cache.miss" tool.name])
  else (Option.none, [])

/-- A guard.block event with a reason. -/
def guardBlockEv (n tname reason : String) : TraceEvent :=
  { name := n,
    payload := [("tool_name", PyVal.str tname), ("reason", PyVal.str reason)] }

/-- Engine._run_guardrails_in from src/agent_tools.py: only GuardrailError
is caught; any other exception escapes (the Except.error branch). -/
def runGuardrailsIn (ctx : ToolContext) (inG : List Guard)
    (tool : FunctionTool) (a : PyDict) :
    Except String (Option ToolResult) × List TraceEvent :=
  match runGuardList inG ctx tool.name (PyVal.dict a) with
  | GuardOutcome.pass =>
      (Except.ok Option.none,
       [tnEv "guard.input.start" tool.name, tnEv "guard.input.ok" tool.name])
  | GuardOutcome.guardrailError m =>
      (Except.ok (some { tool_name := tool.name, ok := false,
                         error_message := some ("guardrail:" ++ m) }),
       [tnEv "guard.input.start" tool.name, guardBlockEv "guard.input.block" tool.name m])
  | GuardOutcome.exn m =>
      (Except.error m, [tnEv "guard.input.start" tool.name])

/-- Engine._run_guardrails_out from src/agent_tools.py: only GuardrailError
is caught; any other exception escapes (the Except.error branch). -/
def runGuardrailsOut (ctx : ToolContext) (outG : List Guard)
    (tool : FunctionTool) (n : PyVal) (attempts : Nat) :
    Except String (Option ToolResult) × List TraceEvent :=
  match runGuardList outG ctx tool.name n with
  | GuardOutcome.pass =>
      (Except.ok Option.none,
       [tnEv "guard.output.start" tool.name, tnEv "guard.output.ok" tool.name])
  | GuardOutcome.guardrailError m =>
      (Except.ok (some { tool_name := tool.name, ok := false,
                         error_message := some ("guardrail:" ++ m),
                         attempts := attempts }),
       [tnEv "guard.output.start" tool.name, guardBlockEv "guard.output.block" tool.name m])
  | GuardOutcome.exn m =>
      (Except.error m, [tnEv "guard.output.start" tool.name])

/-- Engine._finalize_and_store_cache from src/agent_tools.py: the result is
a triple of the success result, the updated engine state and the trace. -/
def finalizeAndStoreCache (e : Engine) (tool : FunctionTool) (raw : String)
    (n : PyVal) (attempts : Nat) : ToolResult × Engine × List TraceEvent :=
  if e.cfg.enable_cache then
    ({ tool_name := tool.name, ok := true, output := n, attempts := attempts },
     { e with cache := cacheSet e.cache (tool.name, raw) n },
     [tnEv "cache.store" tool.name])
  else
    ({ tool_name := tool.name, ok := true, output := n, attempts := attempts },
     e, [])

/-- The tuple returned by Engine._invoke_sync / _invoke_async:
success carries (True, out, attempts, False); failure carries
(False, message, attempts, is_user_error). -/
inductive InvokeOut where
  | success (out : PyVal) (attempts : Nat)
  | failure (msg : String) (attempts : Nat) (isUserError : Bool)

/-- The attempt count of an invocation outcome. -/
def InvokeOut.attempts : InvokeOut → Nat
  | InvokeOut.success _ n => n
  | InvokeOut.failure _ n _ => n

/-- A tool.invoke event carrying attempt number and error text. -/
def invokeAttemptEv (n tname : String) (attempt : Nat) (err : String) :
    TraceEvent :=
  { name := n,
    payload := [("tool_name", PyVal.str tname),
                ("attempt", PyVal.int attempt), ("err", PyVal.str err)] }

/-- The tool.invoke.timeout event. -/
def invokeTimeoutEv (tname : String) (attempt : Nat) : TraceEvent :=
  { name := "tool.invoke.timeout",
    payload := [("tool_name", PyVal.str tname), ("attempt", PyVal.int attempt)] }

/-- The tool.invoke.ok event emitted by run_sync / run_async. -/
def invokeOkEv (tname : String) (attempts : Nat) : TraceEvent :=
  { name := "tool.invoke.ok",
    payload := [("tool_name", PyVal.str tname), ("attempts", PyVal.int attempts)] }

/-- The while loop of Engine._invoke_sync, one constructor step per
iteration.  attempts is the loop counter after the increment at the top of
the iteration; fuel counts the iterations the while condition still
allows, so the entry point below calls with fuel = max_retries + 1 and
fuel never reaches 0 on a live branch (the fuel-0 fallback mirrors the
unreachable final line return False, tool_error:unknown of the source). -/
def invokeSyncLoop (tname : String) (fn : Nat → PyDict → BodyOutcome)
    (a : PyDict) (maxR : Nat) : Nat → Nat → InvokeOut × List TraceEvent
  | 0, attempts => (InvokeOut.failure "tool_error:unknown" attempts false, [])
  | fuel + 1, attempts =>
      match fn attempts a with
      | BodyOutcome.ret v => (InvokeOut.success v attempts, [])
      | BodyOutcome.valueError m =>
          (InvokeOut.failure ("user_error:" ++ m) attempts true,
           [invokeAttemptEv "tool.invoke.user_error" tname attempts m])
      | BodyOutcome.exn m =>
          (InvokeOut.failure ("tool_error:" ++ m) attempts false,
           [invokeAttemptEv "tool.invoke.fail" tname attempts m])
      | BodyOutcome.retryable m =>
          if maxR < attempts then
            (InvokeOut.failure ("tool_error:" ++ m) attempts false,
             [invokeAttemptEv "tool.invoke.retryable" tname attempts m])
          else
            let r := invokeSyncLoop tname fn a maxR fuel (attempts + 1)
            (r.1, invokeAttemptEv "tool.invoke.retryable" tname attempts m :: r.2)

/-- Engine._invoke_sync from src/agent_tools.py. -/
def invokeSync (tname : String) (fn : Nat → PyDict → BodyOutcome)
    (a : PyDict) (maxR : Nat) : InvokeOut × List TraceEvent :=
  let r := invokeSyncLoop tname fn a maxR (maxR + 1) 1
  (r.1, tnEv "tool.invoke.start" tname :: r.2)

/-- The while loop of Engine._invoke_async: identical to the synchronous
loop except that each attempt first runs under asyncio.wait_for, whose
TimeoutError is terminal with no retry. -/
def invokeAsyncLoop (tname : String) (fn : Nat → PyDict → BodyOutcome)
    (slow : Nat → PyDict → Bool) (a : PyDict) (maxR : Nat) :
    Nat → Nat → InvokeOut × List TraceEvent
  | 0, attempts => (InvokeOut.failure "tool_error:unknown" attempts false, [])
  | fuel + 1, attempts =>
      if slow attempts a then
        (InvokeOut.failure "tool_error:timeout" attempts false,
         [invokeTimeoutEv tname attempts])
      else
        match fn attempts a with
        | BodyOutcome.ret v => (InvokeOut.success v attempts, [])
        | BodyOutcome.valueError m =>
            (InvokeOut.failure ("user_error:" ++ m) attempts true,
             [invokeAttemptEv "tool.invoke.user_error" tname attempts m])
        | BodyOutcome.exn m =>
            (InvokeOut.failure ("tool_error:" ++ m) attempts false,
             [invokeAttemptEv "tool.invoke.fail" tname attempts m])
        | BodyOutcome.retryable m =>
            if maxR < attempts then
              (InvokeOut.failure ("tool_error:" ++ m) attempts false,
               [invokeAttemptEv "tool.invoke.retryable" tname attempts m])
            else
              let r := invokeAsyncLoop tname fn slow a maxR fuel (attempts + 1)
              (r.1, invokeAttemptEv "tool.invoke.retryable" tname attempts m :: r.2)

/-- Engine._invoke_async from src/agent_tools.py. -/
def invokeAsync (tname : String) (fn : Nat → PyDict → BodyOutcome)
    (slow : Nat → PyDict → Bool) (a : PyDict) (maxR : Nat) :
    InvokeOut × List TraceEvent :=
  let r := invokeAsyncLoop tname fn slow a maxR (maxR + 1) 1
  (r.1, tnEv "tool.invoke.start" tname :: r.2)

/-- The tail of run_sync / run_async after a successful invocation:
normalize, run output guardrails, finalize and store the cache. -/
def runTail (ctx : ToolContext) (e : Engine) (tool : FunctionTool)
    (raw : String) (out : PyVal) (attempts : Nat) :
    Except String ToolResult × Engine × List TraceEvent :=
  let n := norm tool.name out raw
  match runGuardrailsOut ctx e.outG tool n attempts with
  | (Except.error m, gev) =>
      (Except.error m, e, invokeOkEv tool.name attempts :: gev)
  | (Except.ok (some r), gev) =>
      (Except.ok r, e, invokeOkEv tool.name attempts :: gev)
  | (Except.ok Option.none, gev) =>
      let f := finalizeAndStoreCache e tool raw n attempts
      (Except.ok f.1, f.2.1, invokeOkEv tool.name attempts :: (gev ++ f.2.2))

/-- Engine.run_sync from src/agent_tools.py.  The result is a triple of
the returned value (Except.error is an exception escaping the public
entry point), the engine state after the call, and the trace emitted by
the call in order. -/
def runSync (jl : JsonLoads) (e : Engine) (ctx : ToolContext) (name : String)
    (raw : String) : Except String ToolResult × Engine × List TraceEvent :=
  match regGet e.reg name with
  | Option.none =>
      (Except.ok { tool_name := name, ok := false,
                   error_message := some "unknown_tool" },
       e, [tnEv "tool.resolve.start" name, tnEv "tool.resolve.fail" name])
  | some tool =>
      let evs0 := [tnEv "tool.resolve.start" name, tnEv "tool.resolve.ok" tool.name,
                   tnEv "args.parse.start" tool.name]
      match parseAndCoerce jl name raw (some tool) with
      | (Sum.inl r, pev) => (Except.ok r, e, evs0 ++ pev)
      | (Sum.inr a, pev) =>
          match checkCache e tool raw with
          | (some r, cev) => (Except.ok r, e, evs0 ++ pev ++ cev)
          | (Option.none, cev) =>
              match runGuardrailsIn ctx e.inG tool a with
              | (Except.error m, gev) =>
                  (Except.error m, e, evs0 ++ pev ++ cev ++ gev)
              | (Except.ok (some r), gev) =>
                  (Except.ok r, e, evs0 ++ pev ++ cev ++ gev)
              | (Except.ok Option.none, gev) =>
                  let inv := invokeSync tool.name tool.fn a e.cfg.max_retries
                  match inv.1 with
                  | InvokeOut.failure msg attempts _ =>
                      (Except.ok { tool_name := tool.name, ok := false,
                                   error_message := some msg, attempts := attempts },
                       e, evs0 ++ pev ++ cev ++ gev ++ inv.2)
                  | InvokeOut.success out attempts =>
                      let t := runTail ctx e tool raw out attempts
                      (t.1, t.2.1, evs0 ++ pev ++ cev ++ gev ++ inv.2 ++ t.2.2)

/-- Engine.run_async from src/agent_tools.py: identical to run_sync except
that the invocation runs the asynchronous state machine (per-attempt
timeout). -/
def runAsync (jl : JsonLoads) (e : Engine) (ctx : ToolContext) (name : String)
    (raw : String) : Except String ToolResult × Engine × List TraceEvent :=
  match regGet e.reg name with
  | Option.none =>
      (Except.ok { tool_name := name, ok := false,
                   error_message := some "unknown_tool" },
       e, [tnEv "tool.resolve.start" name, tnEv "tool.resolve.fail" name])
  | some tool =>
      let evs0 := [tnEv "tool.resolve.start" name, tnEv "tool.resolve.ok" tool.name,
                   tnEv "args.parse.start" tool.name]
      match parseAndCoerce jl name raw (some tool) with
      | (Sum.inl r, pev) => (Except.ok r, e, evs0 ++ pev)
      | (Sum.inr a, pev) =>
          match checkCache e tool raw with
          | (some r, cev) => (Except.ok r, e, evs0 ++ pev ++ cev)
          | (Option.none, cev) =>
              match runGuardrailsIn ctx e.inG tool a with
              | (Except.error m, gev) =>
                  (Except.error m, e, evs0 ++ pev ++ cev ++ gev)
              | (Except.ok (some r), gev) =>
                  (Except.ok r, e, evs0 ++ pev ++ cev ++ gev)
              | (Except.ok Option.none, gev) =>
                  let inv := invokeAsync tool.name tool.fn tool.slow a e.cfg.max_retries
                  match inv.1 with
                  | InvokeOut.failure msg attempts _ =>
                      (Except.ok { tool_name := tool.name, ok := false,
                                   error_message := some msg, attempts := attempts },
                       e, evs0 ++ pev ++ cev ++ gev ++ inv.2)
                  | InvokeOut.success out attempts =>
                      let t := runTail ctx e tool raw out attempts
                      (t.1, t.2.1, evs0 ++ pev ++ cev ++ gev ++ inv.2 ++ t.2.2)

/-!
Aliasing model of TraceSink.emit (src/agent_tools.py lines 30 to 34).

TraceSink.emit stores TraceEvent(name, dict(payload)).  Whether dict(...)
protects the stored event from later mutation of the payload by the caller is
a question about object identity, so this part of the development models
payload dicts as heap objects: an address-indexed store of top-level
mappings whose values may reference other objects.  Mutation of a Python
dict is an in-place update of the object at its address.
-/

/-- A value held in a payload dict: a leaf or a reference to a nested
mutable object. -/
inductive HVal where
  | int (n : Int)
  | str (s : String)
  | ref (a : Nat)
deriving DecidableEq

/-- The heap: the object at address a is store[a], a top-level mapping;
fresh objects are appended. -/
structure Heap where
  store : List (List (String × HVal))

/-- The mapping of the object at an address. -/
def Heap.get (h : Heap) (a : Nat) : List (String × HVal) :=
  h.store.getD a []

/-- In-place mutation obj[k] = v of the object at address a. -/
def Heap.setKey (h : Heap) (a : Nat) (k : String) (v : HVal) : Heap :=
  { store := h.store.set a (dSet (h.get a) k v) }

/-- The trace sink of the aliasing model: stored events keep the address
of their stored payload object. -/
structure TraceSinkH where
  events : List (String × Nat)

/-- TraceSink.emit from src/agent_tools.py: dict(payload) allocates a new
object whose top-level mapping is copied from the payload of the caller; the
values, including references to nested objects, are shared. -/
def emitH (h : Heap) (ts : TraceSinkH) (name : String) (payload : Nat) :
    Heap × TraceSinkH :=
  ({ store := h.store ++ [h.get payload] },
   { events := ts.events ++ [(name, h.store.length)] })

/-- Observation of a stored payload through one level of nesting: the
integer at key k2 of the object referenced by key k1 of the object at
address a. -/
def Heap.readPath (h : Heap) (a : Nat) (k1 k2 : String) : Option Int :=
  match dGet (h.get a) k1 with
  | some (HVal.ref b) =>
      match dGet (h.get b) k2 with
      | some (HVal.int n) => some n
      | _ => Option.none
  | _ => Option.none

/-!  Theorems settling the claims.  -/

/-- C2 counterexample.  The claim says the _echo_raw marker is stripped
from the normalized output.  On the concrete return value containing the
marker and one field x, Engine._norm keeps the marker: the normalized
output still maps _echo_raw to True, and it differs from the mapping with
the marker stripped and raw attached (which is what the claim describes). -/
theorem c2_counterexample :
    norm "t" (PyVal.dict [("_echo_raw", PyVal.bool true), ("x", PyVal.int 1)]) "RAW" =
      PyVal.dict [("_echo_raw", PyVal.bool true), ("x", PyVal.int 1),
                  ("raw", PyVal.str "RAW")] ∧
    dGet [("_echo_raw", PyVal.bool true), ("x", PyVal.int 1),
          ("raw", PyVal.str "RAW")] "_echo_raw" = some (PyVal.bool true) ∧
    norm "t" (PyVal.dict [("_echo_raw", PyVal.bool true), ("x", PyVal.int 1)]) "RAW" ≠
      PyVal.dict (dSet (dPop [("_echo_raw", PyVal.bool true), ("x", PyVal.int 1)]
        "_echo_raw") "raw" (PyVal.str "RAW")) := by
  refine ⟨rfl, rfl, ?_⟩
  intro h
  simp [norm, isTrueMarker, dGet, dSet, dPop] at h

/-- C2 amended: for every tool invocation whose raw return value is a
structured mapping carrying the internal _echo_raw marker set to True,
the normalized output is that mapping with the original raw argument
string attached under the key raw; the marker itself is kept, not
stripped. -/
theorem c2_amended (tname : String) (d : PyDict) (raw : String)
    (h : dGet d "_echo_raw" = some (PyVal.bool true)) :
    norm tname (PyVal.dict d) raw = PyVal.dict (dSet d "raw" (PyVal.str raw)) := by
  simp [norm, isTrueMarker, h]

/-- Witness for c2_amended at a concrete mapping. -/
theorem c2_witness :
    norm "t" (PyVal.dict [("_echo_raw", PyVal.bool true)]) "R" =
      PyVal.dict (dSet [("_echo_raw", PyVal.bool true)] "raw" (PyVal.str "R")) :=
  c2_amended "t" [("_echo_raw", PyVal.bool true)] "R" rfl

/-- A caller payload object (address 0) whose x field references a nested
object (address 1) holding y = 1. -/
def c3Heap : Heap := { store := [[("x", HVal.ref 1)], [("y", HVal.int 1)]] }

/-- C3 counterexample.  The claim says the stored payload is a deep copy,
so mutating a value nested inside the caller payload after emission must
not alter the stored event.  Emitting the payload at address 0 stores a
shallow copy at address 2; mutating the nested object at address 1 then
changes what the stored event reads at x.y from 1 to 9. -/
theorem c3_counterexample :
    (emitH c3Heap { events := [] } "ev" 0).2.events = [("ev", 2)] ∧
    (emitH c3Heap { events := [] } "ev" 0).1.readPath 2 "x" "y" = some 1 ∧
    ((emitH c3Heap { events := [] } "ev" 0).1.setKey 1 "y" (HVal.int 9)).readPath
      2 "x" "y" = some 9 ∧
    ((emitH c3Heap { events := [] } "ev" 0).1.setKey 1 "y" (HVal.int 9)).readPath
      2 "x" "y" ≠
      (emitH c3Heap { events := [] } "ev" 0).1.readPath 2 "x" "y" := by
  refine ⟨rfl, rfl, rfl, by decide⟩

/-- C3 amended: TraceSink.emit stores a shallow copy (dict(payload)) taken
at emission time: the stored event equals the caller payload mapping at
emission time, and a later top-level reassignment in the caller payload
does not alter the stored event mapping; mutation of objects nested
inside the payload is shared with the stored event (see the
counterexample). -/
theorem c3_amended (h : Heap) (ts : TraceSinkH) (n : String) (p : Nat)
    (k : String) (v : HVal) (hp : p < h.store.length) :
    (emitH h ts n p).1.get h.store.length = h.get p ∧
    ((emitH h ts n p).1.setKey p k v).get h.store.length =
      (emitH h ts n p).1.get h.store.length := by
  have hlen : (emitH h ts n p).1.store = h.store ++ [h.get p] := rfl
  constructor
  · show (h.store ++ [h.get p]).getD h.store.length [] = h.get p
    simp [List.getD]
  · show ((h.store ++ [h.get p]).set p _).getD h.store.length [] =
      (h.store ++ [h.get p]).getD h.store.length []
    have hne : p ≠ h.store.length := Nat.ne_of_lt hp
    simp [List.getD, List.getElem?_set_ne hne]

/-- Witness for c3_amended on the concrete heap of the counterexample. -/
theorem c3_witness :
    (emitH c3Heap { events := [] } "ev" 0).1.get 2 = c3Heap.get 0 ∧
    ((emitH c3Heap { events := [] } "ev" 0).1.setKey 0 "x" (HVal.int 7)).get 2 =
      (emitH c3Heap { events := [] } "ev" 0).1.get 2 :=
  c3_amended c3Heap { events := [] } "ev" 0 "x" (HVal.int 7) (by decide)

/-- C4: with caching enabled and the cache holding an entry for the exact
(tool name, raw string) key, both entry points return ok with the cached
output, the cached flag, and attempts = 0, the engine state is unchanged,
and the trace of the call ends at the cache.hit event, so no
guard.input.start, tool.invoke.start or guard.output.start event is
emitted after it: the guardrails and the invocation never run. -/
theorem c4_cache_hit_short_circuits (jl : JsonLoads) (e : Engine)
    (ctx : ToolContext) (name raw : String) (tool : FunctionTool) (a : PyDict)
    (pev : List TraceEvent) (v : PyVal)
    (hreg : regGet e.reg name = some tool)
    (hparse : parseAndCoerce jl name raw (some tool) = (Sum.inr a, pev))
    (hen : e.cfg.enable_cache = true)
    (hhit : cacheLookup e.cache (tool.name, raw) = some v) :
    runSync jl e ctx name raw =
      (Except.ok { tool_name := tool.name, ok := true, output := v,
                   error_message := Option.none, attempts := 0, cached := true },
       e,
       [tnEv "tool.resolve.start" name, tnEv "tool.resolve.ok" tool.name,
        tnEv "args.parse.start" tool.name] ++ pev ++ [tnEv "cache.hit" tool.name]) ∧
    runAsync jl e ctx name raw =
      (Except.ok { tool_name := tool.name, ok := true, output := v,
                   error_message := Option.none, attempts := 0, cached := true },
       e,
       [tnEv "tool.resolve.start" name, tnEv "tool.resolve.ok" tool.name,
        tnEv "args.parse.start" tool.name] ++ pev ++ [tnEv "cache.hit" tool.name]) := by
  constructor
  · simp [runSync, hreg, hparse, checkCache, hen, hhit]
  · simp [runAsync, hreg, hparse, checkCache, hen, hhit]

/-- A concrete tool used by witnesses: schema x : int, succeeds on every
attempt, never slow. -/
def wTool : FunctionTool :=
  { name := "t", spec := { schema := [("x", "int")], defaults := Option.none },
    fn := fun _ _ => BodyOutcome.ret (PyVal.dict [("x", PyVal.int 1)]),
    slow := fun _ _ => false }

/-- A concrete json.loads behaviour used by witnesses: the string A
decodes to the object x = 1; everything else fails to decode. -/
def wJl : JsonLoads := fun r =>
  if r = "A" then Except.ok (PyVal.dict [("x", PyVal.int 1)])
  else Except.error "bad json"

/-- A concrete context used by witnesses. -/
def wCtx : ToolContext := { trace_id := "tr" }

/-- A concrete engine whose cache already holds the key (t, A). -/
def wEngHit : Engine :=
  { reg := [wTool], cfg := { max_retries := 1, enable_cache := true },
    inG := [], outG := [], cache := [(("t", "A"), PyVal.str "cached")] }

/-- Witness for c4_cache_hit_short_circuits on a concrete engine. -/
theorem c4_witness :
    runSync wJl wEngHit wCtx "t" "A" =
      (Except.ok { tool_name := "t", ok := true, output := PyVal.str "cached",
                   error_message := Option.none, attempts := 0, cached := true },
       wEngHit,
       [tnEv "tool.resolve.start" "t", tnEv "tool.resolve.ok" "t",
        tnEv "args.parse.start" "t"] ++ [parseOkEv "t" [("x", PyVal.int 1)]] ++
       [tnEv "cache.hit" "t"]) ∧
    runAsync wJl wEngHit wCtx "t" "A" =
      (Except.ok { tool_name := "t", ok := true, output := PyVal.str "cached",
                   error_message := Option.none, attempts := 0, cached := true },
       wEngHit,
       [tnEv "tool.resolve.start" "t", tnEv "tool.resolve.ok" "t",
        tnEv "args.parse.start" "t"] ++ [parseOkEv "t" [("x", PyVal.int 1)]] ++
       [tnEv "cache.hit" "t"]) :=
  c4_cache_hit_short_circuits wJl wEngHit wCtx "t" "A" wTool
    [("x", PyVal.int 1)] [parseOkEv "t" [("x", PyVal.int 1)]]
    (PyVal.str "cached") rfl rfl rfl rfl

/-- The post-invocation tail of both entry points leaves the cache alone
whenever it returns a failing result: the only branch that writes the
cache also returns ok = true. -/
theorem runTail_cache_of_not_ok (ctx : ToolContext) (e : Engine)
    (tool : FunctionTool) (raw : String) (out : PyVal) (att : Nat)
    (r : ToolResult) (e2 : Engine) (tr : List TraceEvent)
    (h : runTail ctx e tool raw out att = (Except.ok r, e2, tr))
    (hok : r.ok = false) : e2.cache = e.cache := by
  simp only [runTail] at h
  split at h
  · injection h with h1 h23
    injection h1
  · injection h with h1 h23
    injection h23 with h2 h3
    subst h2
    rfl
  · simp only [finalizeAndStoreCache] at h
    split at h
    · injection h with h1 h23
      injection h1 with h1
      rw [← h1] at hok
      simp at hok
    · injection h with h1 h23
      injection h1 with h1
      rw [← h1] at hok
      simp at hok

/-- C10: every call to run_sync or run_async that returns a ToolResult
with ok = false leaves the cache exactly as it was; only the full success
path, after the output guardrails, stores an entry. -/
theorem c10_failure_leaves_cache (jl : JsonLoads) (e : Engine)
    (ctx : ToolContext) (name raw : String) :
    (∀ r e2 tr, runSync jl e ctx name raw = (Except.ok r, e2, tr) →
      r.ok = false → e2.cache = e.cache) ∧
    (∀ r e2 tr, runAsync jl e ctx name raw = (Except.ok r, e2, tr) →
      r.ok = false → e2.cache = e.cache) := by
  constructor
  all_goals intro r e2 tr h hok
  · simp only [runSync] at h
    split at h
    · injection h with h1 h23
      injection h23 with h2 h3
      subst h2; rfl
    · split at h
      · injection h with h1 h23
        injection h23 with h2 h3
        subst h2; rfl
      · split at h
        · injection h with h1 h23
          injection h23 with h2 h3
          subst h2; rfl
        · split at h
          · injection h with h1 h23
            injection h1
          · injection h with h1 h23
            injection h23 with h2 h3
            subst h2; rfl
          · split at h
            · injection h with h1 h23
              injection h23 with h2 h3
              subst h2; rfl
            · injection h with h1 h23
              injection h23 with h2 h3
              exact runTail_cache_of_not_ok _ _ _ _ _ _ _ _ _
                (Prod.ext h1 (Prod.ext h2 rfl)) hok
  · simp only [runAsync] at h
    split at h
    · injection h with h1 h23
      injection h23 with h2 h3
      subst h2; rfl
    · split at h
      · injection h with h1 h23
        injection h23 with h2 h3
        subst h2; rfl
      · split at h
        · injection h with h1 h23
          injection h23 with h2 h3
          subst h2; rfl
        · split at h
          · injection h with h1 h23
            injection h1
          · injection h with h1 h23
            injection h23 with h2 h3
            subst h2; rfl
          · split at h
            · injection h with h1 h23
              injection h23 with h2 h3
              subst h2; rfl
            · injection h with h1 h23
              injection h23 with h2 h3
              exact runTail_cache_of_not_ok _ _ _ _ _ _ _ _ _
                (Prod.ext h1 (Prod.ext h2 rfl)) hok

/-- Witness for c10_failure_leaves_cache: a call whose raw payload fails
to decode returns ok = false and leaves the concrete cache unchanged. -/
theorem c10_witness :
    (runSync wJl wEngHit wCtx "t" "B").2.1.cache = wEngHit.cache ∧
    (runAsync wJl wEngHit wCtx "t" "B").2.1.cache = wEngHit.cache :=
  ⟨(c10_failure_leaves_cache wJl wEngHit wCtx "t" "B").1
      { tool_name := "t", ok := false, error_message := some "bad_args:bad json" }
      ((runSync wJl wEngHit wCtx "t" "B").2.1)
      ((runSync wJl wEngHit wCtx "t" "B").2.2)
      (Prod.ext rfl (Prod.ext rfl rfl)) rfl,
   (c10_failure_leaves_cache wJl wEngHit wCtx "t" "B").2
      { tool_name := "t", ok := false, error_message := some "bad_args:bad json" }
      ((runAsync wJl wEngHit wCtx "t" "B").2.1)
      ((runAsync wJl wEngHit wCtx "t" "B").2.2)
      (Prod.ext rfl (Prod.ext rfl rfl)) rfl⟩

/-- Whether a decoded value is a JSON object (a Python dict). -/
def PyVal.isObj : PyVal → Bool
  | PyVal.dict _ => true
  | _ => false

/-- C8: an empty or all-whitespace raw payload is treated as the empty
argument object (json.loads is never consulted and the call proceeds with
the coerced defaults only), while a payload that decodes to a non-object
top-level value fails parsing: both entry points return ok = false with
error message bad_args:args_not_object and the trace of the call ends at
the args.parse.fail event, so no later stage runs. -/
theorem c8_raw_payload_shapes (jl : JsonLoads) (e : Engine) (ctx : ToolContext)
    (name raw : String) (tool : FunctionTool) (a : PyDict) (v : PyVal) :
    (pyStrip raw = "" → coerce tool.spec [] = Except.ok a →
      parseAndCoerce jl name raw (some tool) =
        (Sum.inr a, [parseOkEv tool.name a])) ∧
    (regGet e.reg name = some tool → pyStrip raw ≠ "" →
      jl raw = Except.ok v → v.isObj = false →
      runSync jl e ctx name raw =
        (Except.ok { tool_name := tool.name, ok := false,
                     error_message := some "bad_args:args_not_object" },
         e,
         [tnEv "tool.resolve.start" name, tnEv "tool.resolve.ok" tool.name,
          tnEv "args.parse.start" tool.name,
          parseFailEv tool.name "args_not_object"]) ∧
      runAsync jl e ctx name raw =
        (Except.ok { tool_name := tool.name, ok := false,
                     error_message := some "bad_args:args_not_object" },
         e,
         [tnEv "tool.resolve.start" name, tnEv "tool.resolve.ok" tool.name,
          tnEv "args.parse.start" tool.name,
          parseFailEv tool.name "args_not_object"])) := by
  constructor
  · intro hs hc
    simp [parseAndCoerce, hs, hc]
  · intro hreg hs hjl hobj
    have hparse : parseAndCoerce jl name raw (some tool) =
        (Sum.inl { tool_name := tool.name, ok := false,
                   error_message := some "bad_args:args_not_object" },
         [parseFailEv tool.name "args_not_object"]) := by
      cases v <;> simp_all [parseAndCoerce, PyVal.isObj]
    constructor
    · simp [runSync, hreg, hparse]
    · simp [runAsync, hreg, hparse]

/-- Witness for c8_raw_payload_shapes: a whitespace payload coerces to the
defaults, and a payload decoding to a bare list is rejected before any
later stage on both entry points. -/
theorem c8_witness :
    (parseAndCoerce (fun _ => Except.error "x") "t" "  "
        (some wTool) = (Sum.inr [], [parseOkEv "t" []])) ∧
    runSync (fun _ => Except.ok (PyVal.list [])) wEngHit wCtx "t" "A" =
      (Except.ok { tool_name := "t", ok := false,
                   error_message := some "bad_args:args_not_object" },
       wEngHit,
       [tnEv "tool.resolve.start" "t", tnEv "tool.resolve.ok" "t",
        tnEv "args.parse.start" "t", parseFailEv "t" "args_not_object"]) ∧
    runAsync (fun _ => Except.ok (PyVal.list [])) wEngHit wCtx "t" "A" =
      (Except.ok { tool_name := "t", ok := false,
                   error_message := some "bad_args:args_not_object" },
       wEngHit,
       [tnEv "tool.resolve.start" "t", tnEv "tool.resolve.ok" "t",
        tnEv "args.parse.start" "t", parseFailEv "t" "args_not_object"]) := by
  refine ⟨?_, ?_⟩
  · exact (c8_raw_payload_shapes (fun _ => Except.error "x") wEngHit wCtx "t" "  "
      wTool [] PyVal.none).1 rfl rfl
  · exact (c8_raw_payload_shapes (fun _ => Except.ok (PyVal.list [])) wEngHit wCtx
      "t" "A" wTool [] (PyVal.list [])).2 rfl (by decide) rfl rfl

/-- An input guardrail that raises a RuntimeError (not a GuardrailError). -/
def wBadGuard : Guard := fun _ _ _ => GuardOutcome.exn "boom"

/-- An output guardrail that raises a RuntimeError (not a GuardrailError). -/
def wBadGuardOut : Guard := fun _ _ _ => GuardOutcome.exn "boom2"

/-- An engine whose single input guardrail raises a non-policy error. -/
def wEngBadIn : Engine :=
  { reg := [wTool], cfg := { max_retries := 1, enable_cache := true },
    inG := [wBadGuard], outG := [], cache := [] }

/-- An engine whose single output guardrail raises a non-policy error. -/
def wEngBadOut : Engine :=
  { reg := [wTool], cfg := { max_retries := 1, enable_cache := true },
    inG := [], outG := [wBadGuardOut], cache := [] }

/-- C1 counterexample.  The claim says a guardrail raising an error that
is not a policy violation still yields a ToolResult with ok = false and
nothing is thrown across the public API boundary.  On a concrete engine
whose input guardrail raises RuntimeError boom, both run_sync and
run_async end in the exception branch (Except.error): the exception
escapes the public entry point and no ToolResult is returned. -/
theorem c1_counterexample :
    (runSync wJl wEngBadIn wCtx "t" "A").1 = Except.error "boom" ∧
    (runAsync wJl wEngBadIn wCtx "t" "A").1 = Except.error "boom" := ⟨rfl, rfl⟩

/-- C1 amended: a guardrail (input or output) that raises an error other
than a GuardrailError is not caught by the engine: the exception
propagates out of run_sync and run_async unchanged (the call raises
instead of returning a ToolResult). -/
theorem c1_amended (jl : JsonLoads) (e : Engine) (ctx : ToolContext)
    (name raw m : String) (tool : FunctionTool) (a : PyDict)
    (pev cev : List TraceEvent)
    (hreg : regGet e.reg name = some tool)
    (hparse : parseAndCoerce jl name raw (some tool) = (Sum.inr a, pev))
    (hcache : checkCache e tool raw = (Option.none, cev)) :
    (runGuardList e.inG ctx tool.name (PyVal.dict a) = GuardOutcome.exn m →
      (runSync jl e ctx name raw).1 = Except.error m ∧
      (runAsync jl e ctx name raw).1 = Except.error m) ∧
    (∀ out att iev iev2,
      runGuardList e.inG ctx tool.name (PyVal.dict a) = GuardOutcome.pass →
      runGuardList e.outG ctx tool.name (norm tool.name out raw) =
        GuardOutcome.exn m →
      (invokeSync tool.name tool.fn a e.cfg.max_retries =
          (InvokeOut.success out att, iev) →
        (runSync jl e ctx name raw).1 = Except.error m) ∧
      (invokeAsync tool.name tool.fn tool.slow a e.cfg.max_retries =
          (InvokeOut.success out att, iev2) →
        (runAsync jl e ctx name raw).1 = Except.error m)) := by
  constructor
  · intro hg
    constructor
    · simp [runSync, hreg, hparse, hcache, runGuardrailsIn, hg]
    · simp [runAsync, hreg, hparse, hcache, runGuardrailsIn, hg]
  · intro out att iev iev2 hgin hgout
    constructor
    · intro hinv
      simp [runSync, hreg, hparse, hcache, runGuardrailsIn, hgin, hinv,
            runTail, runGuardrailsOut, hgout]
    · intro hinv
      simp [runAsync, hreg, hparse, hcache, runGuardrailsIn, hgin, hinv,
            runTail, runGuardrailsOut, hgout]

/-- Witness for c1_amended: the input-stage conjunct on the engine with
the bad input guardrail, and the output-stage conjunct on the engine
with the bad output guardrail. -/
theorem c1_witness :
    ((runSync wJl wEngBadIn wCtx "t" "A").1 = Except.error "boom" ∧
     (runAsync wJl wEngBadIn wCtx "t" "A").1 = Except.error "boom") ∧
    ((runSync wJl wEngBadOut wCtx "t" "A").1 = Except.error "boom2" ∧
     (runAsync wJl wEngBadOut wCtx "t" "A").1 = Except.error "boom2") := by
  constructor
  · exact (c1_amended wJl wEngBadIn wCtx "t" "A" "boom" wTool
      [("x", PyVal.int 1)] [parseOkEv "t" [("x", PyVal.int 1)]]
      [tnEv "cache.miss" "t"] rfl rfl rfl).1 rfl
  · have h := (c1_amended wJl wEngBadOut wCtx "t" "A" "boom2" wTool
      [("x", PyVal.int 1)] [parseOkEv "t" [("x", PyVal.int 1)]]
      [tnEv "cache.miss" "t"] rfl rfl rfl).2
      (PyVal.dict [("x", PyVal.int 1)]) 1
      [tnEv "tool.invoke.start" "t"] [tnEv "tool.invoke.start" "t"] rfl rfl
    exact ⟨h.1 rfl, h.2 rfl⟩

/-- On the asynchronous retry loop, retryable attempts followed by an
attempt that exceeds the deadline end at that attempt with the timeout
error: a timeout is terminal and never retried. -/
theorem invokeAsyncLoop_timeout (tname : String)
    (fn : Nat → PyDict → BodyOutcome) (slow : Nat → PyDict → Bool)
    (a : PyDict) (maxR k : Nat) (hk2 : k ≤ maxR + 1) (hslow : slow k a = true)
    (hpre : ∀ i, 1 ≤ i → i < k → slow i a = false ∧
      ∃ s, fn i a = BodyOutcome.retryable s) :
    ∀ fuel attempts, attempts + fuel = maxR + 2 → 1 ≤ attempts → attempts ≤ k →
      (invokeAsyncLoop tname fn slow a maxR fuel attempts).1 =
        InvokeOut.failure "tool_error:timeout" k false := by
  intro fuel
  induction fuel with
  | zero =>
      intro attempts h1 h2 h3
      exact absurd h3 (by omega)
  | succ fuel ih =>
      intro attempts hsum h1 hle
      by_cases hak : attempts = k
      · subst hak
        simp [invokeAsyncLoop, hslow]
      · have hlt : attempts < k := lt_of_le_of_ne hle hak
        obtain ⟨hs, s, hfn⟩ := hpre attempts h1 hlt
        have hmr : ¬ maxR < attempts := by omega
        simp [invokeAsyncLoop, hs, hfn, hmr]
        exact ih (attempts + 1) (by omega) (by omega) (by omega)

/-- C5: on run_async, when attempts 1..k-1 are retryable and attempt k
exceeds async_timeout_s (k within the retry budget), the call fails
terminally at attempt k with error exactly tool_error:timeout and
attempts = k, regardless of the configured retry budget: timeouts are
never retried. -/
theorem c5_async_timeout_terminal (jl : JsonLoads) (e : Engine)
    (ctx : ToolContext) (name raw : String) (tool : FunctionTool) (a : PyDict)
    (pev cev : List TraceEvent) (k : Nat)
    (hreg : regGet e.reg name = some tool)
    (hparse : parseAndCoerce jl name raw (some tool) = (Sum.inr a, pev))
    (hcache : checkCache e tool raw = (Option.none, cev))
    (hguard : runGuardList e.inG ctx tool.name (PyVal.dict a) = GuardOutcome.pass)
    (hk1 : 1 ≤ k) (hk2 : k ≤ e.cfg.max_retries + 1)
    (hpre : ∀ i, 1 ≤ i → i < k → tool.slow i a = false ∧
      ∃ s, tool.fn i a = BodyOutcome.retryable s)
    (hslow : tool.slow k a = true) :
    (runAsync jl e ctx name raw).1 =
      Except.ok { tool_name := tool.name, ok := false, output := PyVal.none,
                  error_message := some "tool_error:timeout", attempts := k,
                  cached := false } := by
  have hinv : (invokeAsync tool.name tool.fn tool.slow a e.cfg.max_retries).1 =
      InvokeOut.failure "tool_error:timeout" k false := by
    have h := invokeAsyncLoop_timeout tool.name tool.fn tool.slow a
      e.cfg.max_retries k hk2 hslow hpre (e.cfg.max_retries + 1) 1
      (by omega) le_rfl hk1
    simpa [invokeAsync] using h
  simp [runAsync, hreg, hparse, hcache, runGuardrailsIn, hguard, hinv]

/-- A tool whose every attempt exceeds the asynchronous deadline. -/
def wToolSlow : FunctionTool :=
  { name := "t", spec := { schema := [("x", "int")], defaults := Option.none },
    fn := fun _ _ => BodyOutcome.ret PyVal.none,
    slow := fun _ _ => true }

/-- An engine with a large retry budget over the always-slow tool. -/
def wEngSlow : Engine :=
  { reg := [wToolSlow], cfg := { max_retries := 9, enable_cache := false },
    inG := [], outG := [], cache := [] }

/-- Witness for c5_async_timeout_terminal: with max_retries = 9 and every
attempt slow, run_async fails at attempt 1 with tool_error:timeout. -/
theorem c5_witness :
    (runAsync wJl wEngSlow wCtx "t" "A").1 =
      Except.ok { tool_name := "t", ok := false, output := PyVal.none,
                  error_message := some "tool_error:timeout", attempts := 1,
                  cached := false } :=
  c5_async_timeout_terminal wJl wEngSlow wCtx "t" "A" wToolSlow
    [("x", PyVal.int 1)] [parseOkEv "t" [("x", PyVal.int 1)]] [] 1
    rfl rfl rfl rfl le_rfl (by decide)
    (fun i h1 h2 => absurd h2 (by omega)) rfl

/-- The synchronous retry loop never reports more than max_retries + 1
attempts. -/
theorem invokeSyncLoop_attempts_le (tname : String)
    (fn : Nat → PyDict → BodyOutcome) (a : PyDict) (maxR : Nat) :
    ∀ fuel attempts, attempts + fuel = maxR + 2 → 1 ≤ attempts →
      attempts ≤ maxR + 1 →
      (invokeSyncLoop tname fn a maxR fuel attempts).1.attempts ≤ maxR + 1 := by
  intro fuel
  induction fuel with
  | zero =>
      intro attempts h1 h2 h3
      exact absurd h3 (by omega)
  | succ fuel ih =>
      intro attempts hsum h1 hle
      rcases hfn : fn attempts a with v | m | m | m
      · simpa [invokeSyncLoop, hfn, InvokeOut.attempts] using hle
      · simpa [invokeSyncLoop, hfn, InvokeOut.attempts] using hle
      · by_cases hmr : maxR < attempts
        · simpa [invokeSyncLoop, hfn, hmr, InvokeOut.attempts] using hle
        · simp [invokeSyncLoop, hfn, hmr, InvokeOut.attempts]
          exact ih (attempts + 1) (by omega) (by omega) (by omega)
      · simpa [invokeSyncLoop, hfn, InvokeOut.attempts] using hle

/-- The asynchronous retry loop never reports more than max_retries + 1
attempts. -/
theorem invokeAsyncLoop_attempts_le (tname : String)
    (fn : Nat → PyDict → BodyOutcome) (slow : Nat → PyDict → Bool)
    (a : PyDict) (maxR : Nat) :
    ∀ fuel attempts, attempts + fuel = maxR + 2 → 1 ≤ attempts →
      attempts ≤ maxR + 1 →
      (invokeAsyncLoop tname fn slow a maxR fuel attempts).1.attempts ≤
        maxR + 1 := by
  intro fuel
  induction fuel with
  | zero =>
      intro attempts h1 h2 h3
      exact absurd h3 (by omega)
  | succ fuel ih =>
      intro attempts hsum h1 hle
      by_cases hs : slow attempts a
      · simpa [invokeAsyncLoop, hs, InvokeOut.attempts] using hle
      · rcases hfn : fn attempts a with v | m | m | m
        · simpa [invokeAsyncLoop, hs, hfn, InvokeOut.attempts] using hle
        · simpa [invokeAsyncLoop, hs, hfn, InvokeOut.attempts] using hle
        · by_cases hmr : maxR < attempts
          · simpa [invokeAsyncLoop, hs, hfn, hmr, InvokeOut.attempts] using hle
          · simp [invokeAsyncLoop, hs, hfn, hmr, InvokeOut.attempts]
            exact ih (attempts + 1) (by omega) (by omega) (by omega)
        · simpa [invokeAsyncLoop, hs, hfn, InvokeOut.attempts] using hle

/-- When every attempt in the budget fails retryably, the synchronous loop
exhausts the budget and returns the most recent retryable message with
attempts = max_retries + 1. -/
theorem invokeSyncLoop_exhaust (tname : String)
    (fn : Nat → PyDict → BodyOutcome) (a : PyDict) (maxR : Nat)
    (msgs : Nat → String)
    (hall : ∀ i, 1 ≤ i → i ≤ maxR + 1 → fn i a = BodyOutcome.retryable (msgs i)) :
    ∀ fuel attempts, attempts + fuel = maxR + 2 → 1 ≤ attempts →
      attempts ≤ maxR + 1 →
      (invokeSyncLoop tname fn a maxR fuel attempts).1 =
        InvokeOut.failure ("tool_error:" ++ msgs (maxR + 1)) (maxR + 1) false := by
  intro fuel
  induction fuel with
  | zero =>
      intro attempts h1 h2 h3
      exact absurd h3 (by omega)
  | succ fuel ih =>
      intro attempts hsum h1 hle
      have hfn := hall attempts h1 hle
      by_cases hmr : maxR < attempts
      · have hat : attempts = maxR + 1 := by omega
        subst hat
        simp [invokeSyncLoop, hfn]
      · simp [invokeSyncLoop, hfn, hmr]
        exact ih (attempts + 1) (by omega) (by omega) (by omega)

/-- When every attempt in the budget fails retryably and none is slow, the
asynchronous loop exhausts the budget the same way. -/
theorem invokeAsyncLoop_exhaust (tname : String)
    (fn : Nat → PyDict → BodyOutcome) (slow : Nat → PyDict → Bool)
    (a : PyDict) (maxR : Nat) (msgs : Nat → String)
    (hall : ∀ i, 1 ≤ i → i ≤ maxR + 1 → fn i a = BodyOutcome.retryable (msgs i))
    (hfast : ∀ i, 1 ≤ i → i ≤ maxR + 1 → slow i a = false) :
    ∀ fuel attempts, attempts + fuel = maxR + 2 → 1 ≤ attempts →
      attempts ≤ maxR + 1 →
      (invokeAsyncLoop tname fn slow a maxR fuel attempts).1 =
        InvokeOut.failure ("tool_error:" ++ msgs (maxR + 1)) (maxR + 1) false := by
  intro fuel
  induction fuel with
  | zero =>
      intro attempts h1 h2 h3
      exact absurd h3 (by omega)
  | succ fuel ih =>
      intro attempts hsum h1 hle
      have hfn := hall attempts h1 hle
      have hs := hfast attempts h1 hle
      by_cases hmr : maxR < attempts
      · have hat : attempts = maxR + 1 := by omega
        subst hat
        simp [invokeAsyncLoop, hfn, hs]
      · simp [invokeAsyncLoop, hfn, hs, hmr]
        exact ih (attempts + 1) (by omega) (by omega) (by omega)

/-- C6: the invocation retry loop (synchronous and asynchronous) makes at
most max_retries extra attempts beyond the first: the reported attempt
count never exceeds max_retries + 1; when every attempt fails retryably
the most recent retryable message is returned as a tool error with
attempts = max_retries + 1; and a retryable failure on attempt 1 followed
by success on attempt 2 with max_retries = 1 yields success (ok = True)
with attempts = 2. -/
theorem c6_retry_budget (tname : String) (fn : Nat → PyDict → BodyOutcome)
    (slow : Nat → PyDict → Bool) (a : PyDict) (maxR : Nat) :
    ((invokeSync tname fn a maxR).1.attempts ≤ maxR + 1) ∧
    ((invokeAsync tname fn slow a maxR).1.attempts ≤ maxR + 1) ∧
    (∀ msgs : Nat → String,
      (∀ i, 1 ≤ i → i ≤ maxR + 1 → fn i a = BodyOutcome.retryable (msgs i)) →
      (invokeSync tname fn a maxR).1 =
        InvokeOut.failure ("tool_error:" ++ msgs (maxR + 1)) (maxR + 1) false) ∧
    (∀ msgs : Nat → String,
      (∀ i, 1 ≤ i → i ≤ maxR + 1 → fn i a = BodyOutcome.retryable (msgs i)) →
      (∀ i, 1 ≤ i → i ≤ maxR + 1 → slow i a = false) →
      (invokeAsync tname fn slow a maxR).1 =
        InvokeOut.failure ("tool_error:" ++ msgs (maxR + 1)) (maxR + 1) false) ∧
    (∀ s v, fn 1 a = BodyOutcome.retryable s → fn 2 a = BodyOutcome.ret v →
      (invokeSync tname fn a 1).1 = InvokeOut.success v 2) ∧
    (∀ s v, fn 1 a = BodyOutcome.retryable s → fn 2 a = BodyOutcome.ret v →
      slow 1 a = false → slow 2 a = false →
      (invokeAsync tname fn slow a 1).1 = InvokeOut.success v 2) := by
  refine ⟨?_, ?_, ?_, ?_, ?_, ?_⟩
  · have h := invokeSyncLoop_attempts_le tname fn a maxR (maxR + 1) 1
      (by omega) le_rfl (by omega)
    simpa [invokeSync] using h
  · have h := invokeAsyncLoop_attempts_le tname fn slow a maxR (maxR + 1) 1
      (by omega) le_rfl (by omega)
    simpa [invokeAsync] using h
  · intro msgs hall
    have h := invokeSyncLoop_exhaust tname fn a maxR msgs hall (maxR + 1) 1
      (by omega) le_rfl (by omega)
    simpa [invokeSync] using h
  · intro msgs hall hfast
    have h := invokeAsyncLoop_exhaust tname fn slow a maxR msgs hall hfast
      (maxR + 1) 1 (by omega) le_rfl (by omega)
    simpa [invokeAsync] using h
  · intro s v h1 h2
    simp [invokeSync, invokeSyncLoop, h1, h2]
  · intro s v h1 h2 hs1 hs2
    simp [invokeAsync, invokeAsyncLoop, h1, h2, hs1, hs2]

/-- The attempt-indexed behaviour used by the c6 witness: retryable on
attempt 1, a value on every later attempt. -/
def wFnRetryOnce : Nat → PyDict → BodyOutcome := fun i _ =>
  if i = 1 then BodyOutcome.retryable "again" else BodyOutcome.ret (PyVal.int 7)

/-- The always-retryable behaviour used by the c6 witness. -/
def wFnAlwaysRetry : Nat → PyDict → BodyOutcome := fun _ _ =>
  BodyOutcome.retryable "busy"

/-- Witness for c6_retry_budget at max_retries = 1 with concrete
behaviours: the attempt bound, budget exhaustion returning the last
retryable message with attempts = 2, and retry-then-success with
attempts = 2, on both loop variants. -/
theorem c6_witness :
    ((invokeSync "t" wFnRetryOnce [] 1).1.attempts ≤ 2) ∧
    ((invokeAsync "t" wFnRetryOnce (fun _ _ => false) [] 1).1.attempts ≤ 2) ∧
    ((invokeSync "t" wFnAlwaysRetry [] 1).1 =
      InvokeOut.failure "tool_error:busy" 2 false) ∧
    ((invokeAsync "t" wFnAlwaysRetry (fun _ _ => false) [] 1).1 =
      InvokeOut.failure "tool_error:busy" 2 false) ∧
    ((invokeSync "t" wFnRetryOnce [] 1).1 = InvokeOut.success (PyVal.int 7) 2) ∧
    ((invokeAsync "t" wFnRetryOnce (fun _ _ => false) [] 1).1 =
      InvokeOut.success (PyVal.int 7) 2) := by
  obtain ⟨ha, hb, hc, hd, he, hf⟩ :=
    c6_retry_budget "t" wFnRetryOnce (fun _ _ => false) [] 1
  obtain ⟨_, _, hc2, hd2, _, _⟩ :=
    c6_retry_budget "t" wFnAlwaysRetry (fun _ _ => false) [] 1
  refine ⟨ha, hb, ?_, ?_, ?_, ?_⟩
  · exact hc2 (fun _ => "busy") (fun i hi1 hi2 => rfl)
  · exact hd2 (fun _ => "busy") (fun i hi1 hi2 => rfl) (fun i hi1 hi2 => rfl)
  · exact he "again" (PyVal.int 7) rfl rfl
  · exact hf "again" (PyVal.int 7) rfl rfl rfl rfl

/-- Looking up the key just stored finds the stored value. -/
theorem cacheLookup_cacheSet_self (c : List ((String × String) × PyVal))
    (k : String × String) (v : PyVal) :
    cacheLookup (cacheSet c k v) k = some v := by
  induction c with
  | nil => simp [cacheSet, cacheLookup]
  | cons kv rest ih =>
      by_cases h : kv.1 = k
      · simp [cacheSet, cacheLookup, h]
      · simp [cacheSet, cacheLookup, h, ih]

/-- Storing under one key leaves lookups of a different key unchanged. -/
theorem cacheLookup_cacheSet_ne (c : List ((String × String) × PyVal))
    (k1 k2 : String × String) (v : PyVal) (h : ¬ k1 = k2) :
    cacheLookup (cacheSet c k1 v) k2 = cacheLookup c k2 := by
  induction c with
  | nil => simp [cacheSet, cacheLookup, h]
  | cons kv rest ih =>
      by_cases h1 : kv.1 = k1
      · simp [cacheSet, cacheLookup, h1, h]
      · simp [cacheSet, cacheLookup, h1, ih]

/-- C7: cache keys are the exact raw argument string.  Two raw encodings
that decode to the same object but differ textually each run the full
pipeline: the first call invokes the tool and stores under (tool, raw1);
the second call misses the cache, returns a non-cached result with its
own invocation (attempts = 1, tool.invoke.start in its trace), and the
final cache holds two separate entries whose values are the normalized
outputs for each raw string, not the raw tool return. -/
theorem c7_exact_string_cache_keys (jl : JsonLoads) (e : Engine)
    (ctx : ToolContext) (name raw1 raw2 : String) (tool : FunctionTool)
    (p a : PyDict) (out : PyVal)
    (hraw : ¬ raw1 = raw2)
    (hs1 : ¬ pyStrip raw1 = "") (hs2 : ¬ pyStrip raw2 = "")
    (hjl1 : jl raw1 = Except.ok (PyVal.dict p))
    (hjl2 : jl raw2 = Except.ok (PyVal.dict p))
    (hreg : regGet e.reg name = some tool)
    (hco : coerce tool.spec p = Except.ok a)
    (hen : e.cfg.enable_cache = true)
    (hc1 : cacheLookup e.cache (tool.name, raw1) = Option.none)
    (hc2 : cacheLookup e.cache (tool.name, raw2) = Option.none)
    (hgin : ∀ v, runGuardList e.inG ctx tool.name v = GuardOutcome.pass)
    (hgout : ∀ v, runGuardList e.outG ctx tool.name v = GuardOutcome.pass)
    (hfn : tool.fn 1 a = BodyOutcome.ret out) :
    (runSync jl e ctx name raw1).1 =
      Except.ok { tool_name := tool.name, ok := true,
                  output := norm tool.name out raw1,
                  error_message := Option.none, attempts := 1, cached := false } ∧
    (runSync jl (runSync jl e ctx name raw1).2.1 ctx name raw2).1 =
      Except.ok { tool_name := tool.name, ok := true,
                  output := norm tool.name out raw2,
                  error_message := Option.none, attempts := 1, cached := false } ∧
    cacheLookup
      (runSync jl (runSync jl e ctx name raw1).2.1 ctx name raw2).2.1.cache
      (tool.name, raw1) = some (norm tool.name out raw1) ∧
    cacheLookup
      (runSync jl (runSync jl e ctx name raw1).2.1 ctx name raw2).2.1.cache
      (tool.name, raw2) = some (norm tool.name out raw2) ∧
    "tool.invoke.start" ∈
      ((runSync jl (runSync jl e ctx name raw1).2.1 ctx name raw2).2.2.map
        TraceEvent.name) := by
  have hne : ¬ ((tool.name, raw1) : String × String) = (tool.name, raw2) :=
    fun h => hraw (congrArg Prod.snd h)
  have hne2 : ¬ ((tool.name, raw2) : String × String) = (tool.name, raw1) :=
    fun h => hraw (congrArg Prod.snd h).symm
  have hp1 : parseAndCoerce jl name raw1 (some tool) =
      (Sum.inr a, [parseOkEv tool.name a]) := by
    simp [parseAndCoerce, hs1, hjl1, hco]
  have hp2 : parseAndCoerce jl name raw2 (some tool) =
      (Sum.inr a, [parseOkEv tool.name a]) := by
    simp [parseAndCoerce, hs2, hjl2, hco]
  have hinv : invokeSync tool.name tool.fn a e.cfg.max_retries =
      (InvokeOut.success out 1, [tnEv "tool.invoke.start" tool.name]) := by
    simp [invokeSync, invokeSyncLoop, hfn]
  have h1b : (runSync jl e ctx name raw1).2.1 =
      { e with cache := cacheSet e.cache (tool.name, raw1)
                          (norm tool.name out raw1) } := by
    simp [runSync, hreg, hp1, checkCache, hen, hc1, runGuardrailsIn, hgin,
          hinv, runTail, runGuardrailsOut, hgout, finalizeAndStoreCache]
  have hlk2 : cacheLookup (cacheSet e.cache (tool.name, raw1)
      (norm tool.name out raw1)) (tool.name, raw2) = Option.none := by
    rw [cacheLookup_cacheSet_ne _ _ _ _ hne]
    exact hc2
  have h2b : (runSync jl (runSync jl e ctx name raw1).2.1 ctx name raw2).2.1 =
      { e with cache := cacheSet (cacheSet e.cache (tool.name, raw1)
                          (norm tool.name out raw1)) (tool.name, raw2)
                          (norm tool.name out raw2) } := by
    rw [h1b]
    simp [runSync, hreg, hp2, checkCache, hen, hlk2, runGuardrailsIn, hgin,
          hinv, runTail, runGuardrailsOut, hgout, finalizeAndStoreCache]
  refine ⟨?_, ?_, ?_, ?_, ?_⟩
  · simp [runSync, hreg, hp1, checkCache, hen, hc1, runGuardrailsIn, hgin,
          hinv, runTail, runGuardrailsOut, hgout, finalizeAndStoreCache]
  · rw [h1b]
    simp [runSync, hreg, hp2, checkCache, hen, hlk2, runGuardrailsIn, hgin,
          hinv, runTail, runGuardrailsOut, hgout, finalizeAndStoreCache]
  · rw [h2b]
    rw [cacheLookup_cacheSet_ne _ _ _ _ hne2]
    exact cacheLookup_cacheSet_self _ _ _
  · rw [h2b]
    exact cacheLookup_cacheSet_self _ _ _
  · rw [h1b]
    simp [runSync, hreg, hp2, checkCache, hen, hlk2, runGuardrailsIn, hgin,
          hinv, runTail, runGuardrailsOut, hgout, finalizeAndStoreCache,
          tnEv, parseOkEv, invokeOkEv]

/-- A json.loads behaviour that decodes every raw string to x = 1, so two
textually different raws decode to equal objects. -/
def wJlConst : JsonLoads := fun _ => Except.ok (PyVal.dict [("x", PyVal.int 1)])

/-- An empty-cache engine over wTool used by the c7 witness. -/
def wEngEmpty : Engine :=
  { reg := [wTool], cfg := { max_retries := 1, enable_cache := true },
    inG := [], outG := [], cache := [] }

/-- Witness for c7_exact_string_cache_keys on the textually different but
semantically equal raws A and (A with a trailing space). -/
theorem c7_witness :
    (runSync wJlConst wEngEmpty wCtx "t" "A").1 =
      Except.ok { tool_name := "t", ok := true,
                  output := norm "t" (PyVal.dict [("x", PyVal.int 1)]) "A",
                  error_message := Option.none, attempts := 1, cached := false } ∧
    (runSync wJlConst (runSync wJlConst wEngEmpty wCtx "t" "A").2.1 wCtx "t" "A ").1 =
      Except.ok { tool_name := "t", ok := true,
                  output := norm "t" (PyVal.dict [("x", PyVal.int 1)]) "A ",
                  error_message := Option.none, attempts := 1, cached := false } ∧
    cacheLookup
      (runSync wJlConst (runSync wJlConst wEngEmpty wCtx "t" "A").2.1 wCtx
        "t" "A ").2.1.cache ("t", "A") =
      some (norm "t" (PyVal.dict [("x", PyVal.int 1)]) "A") ∧
    cacheLookup
      (runSync wJlConst (runSync wJlConst wEngEmpty wCtx "t" "A").2.1 wCtx
        "t" "A ").2.1.cache ("t", "A ") =
      some (norm "t" (PyVal.dict [("x", PyVal.int 1)]) "A ") ∧
    "tool.invoke.start" ∈
      ((runSync wJlConst (runSync wJlConst wEngEmpty wCtx "t" "A").2.1 wCtx
        "t" "A ").2.2.map TraceEvent.name) :=
  c7_exact_string_cache_keys wJlConst wEngEmpty wCtx "t" "A" "A " wTool
    [("x", PyVal.int 1)] [("x", PyVal.int 1)] (PyVal.dict [("x", PyVal.int 1)])
    (by decide) (by decide) (by decide) rfl rfl rfl rfl rfl rfl rfl
    (fun _ => rfl) (fun _ => rfl) rfl

/-- dropWhile is the identity on a list none of whose elements satisfy
the predicate. -/
theorem dropWhile_eq_self_of_all {α : Type} (p : α → Bool) (l : List α)
    (h : ∀ c ∈ l, p c = false) : l.dropWhile p = l := by
  cases l with
  | nil => rfl
  | cons x xs => simp [List.dropWhile_cons, h x (by simp)]

/-- Python str.strip() is the identity on text with no whitespace at all. -/
theorem stripList_of_noSpace (l : List Char)
    (h : ∀ c ∈ l, pyIsSpace c = false) : pyStripList l = l := by
  unfold pyStripList
  rw [dropWhile_eq_self_of_all _ _ h]
  rw [dropWhile_eq_self_of_all _ _ (fun c hc => h c (List.mem_reverse.mp hc))]
  exact List.reverse_reverse l

/-- A digit character is not Python whitespace. -/
theorem isDigit_not_space (c : Char) (h : c.isDigit = true) :
    pyIsSpace c = false := by
  by_contra hc
  have hc2 : pyIsSpace c = true := by
    revert hc; cases pyIsSpace c <;> simp
  simp only [pyIsSpace, Bool.or_eq_true, decide_eq_true_eq] at hc2
  rcases hc2 with ((((h1 | h1) | h1) | h1) | h1) | h1 <;> subst h1 <;>
    exact absurd h (by decide)

/-- A digit character is not the minus sign. -/
theorem digit_ne_dash (c : Char) (h : c.isDigit = true) : ¬ c = '-' := by
  intro he; subst he; exact absurd h (by decide)

/-- A digit character is not the plus sign. -/
theorem digit_ne_plus (c : Char) (h : c.isDigit = true) : ¬ c = '+' := by
  intro he; subst he; exact absurd h (by decide)

/-- lstrip of the minus sign removes exactly the leading run of minus
signs in front of a digit block. -/
theorem lstrip_dash_replicate (m : Nat) (ds : List Char)
    (hd : ds.all Char.isDigit = true) (hne : ¬ ds = []) :
    (List.replicate m '-' ++ ds).dropWhile (fun c => c = '-') = ds := by
  induction m with
  | zero =>
      cases ds with
      | nil => exact absurd rfl hne
      | cons d rest =>
          have hdd : d.isDigit = true := by
            simp [List.all_cons, Bool.and_eq_true] at hd
            exact hd.1
          simp [List.dropWhile_cons, digit_ne_dash d hdd]
  | succ m ih =>
      simp only [List.replicate_succ, List.cons_append, List.dropWhile_cons]
      simpa using ih

/-- A run of minus signs followed by digits contains no whitespace. -/
theorem noSpace_dashDigits (m : Nat) (ds : List Char)
    (hd : ds.all Char.isDigit = true) :
    ∀ c ∈ List.replicate m '-' ++ ds, pyIsSpace c = false := by
  intro c hc
  rcases List.mem_append.mp hc with h | h
  · have hcd : c = '-' := List.eq_of_mem_replicate h
    subst hcd; decide
  · refine isDigit_not_space c ?_
    have hall := List.all_eq_true.mp hd c h
    simpa using hall

/-- C9 amended: for a key declared int whose supplied value is a string,
coercion accepts exactly the trimmed forms that are all digits after at
most one leading minus sign, converting them to the integer value; a
trimmed form failing the lstrip/isdigit test fails with the validation
error bad_int:key that names the offending key and expected type; but a
trimmed form that is all digits after two or more leading minus signs
passes that test and then fails inside int() with the generic
invalid-literal message, which names neither the key nor the type.
The model of _coerce is pure: the caller mapping is copied, never
mutated. -/
theorem c9_amended (k s : String) :
    (pyIsDigitStr (pyLStripDash (pyStrip s)) = false →
      coerceKey k "int" (PyVal.str s) = Except.error ("bad_int:" ++ k)) ∧
    (∀ ds, (pyStrip s).data = ds → ds.all Char.isDigit = true → ¬ ds = [] →
      coerceKey k "int" (PyVal.str s) = Except.ok (PyVal.int (digitsVal ds))) ∧
    (∀ ds, (pyStrip s).data = '-' :: ds → ds.all Char.isDigit = true →
      ¬ ds = [] →
      coerceKey k "int" (PyVal.str s) = Except.ok (PyVal.int (-(digitsVal ds)))) ∧
    (∀ m ds, (pyStrip s).data = List.replicate m '-' ++ ds → 2 ≤ m →
      ds.all Char.isDigit = true → ¬ ds = [] →
      coerceKey k "int" (PyVal.str s) =
        Except.error (invalidLiteralMsg (pyStrip s))) := by
  refine ⟨?_, ?_, ?_, ?_⟩
  · intro hguard
    simp [coerceKey, isInstInt, hguard]
  · intro ds hts hd hne
    have hl : (List.replicate 0 '-' ++ ds).dropWhile (fun c => c = '-') = ds :=
      lstrip_dash_replicate 0 ds hd hne
    simp only [List.replicate, List.nil_append] at hl
    have hguard : pyIsDigitStr (pyLStripDash (pyStrip s)) = true := by
      simp [pyIsDigitStr, pyLStripDash, hts, hl, hd, hne]
    have hns : pyStripList ds = ds := stripList_of_noSpace ds (by
      have := noSpace_dashDigits 0 ds hd
      simpa using this)
    rcases hds : ds with _ | ⟨d, rest⟩
    · exact absurd hds hne
    · subst hds
      have hdd : d.isDigit = true := by
        simp [List.all_cons, Bool.and_eq_true] at hd
        exact hd.1
      have hint : pyIntOfString (pyStrip s) = Except.ok (digitsVal (d :: rest)) := by
        simp only [pyIntOfString, hts, hns]
        split
        · next heq =>
            exact absurd (List.head_eq_of_cons_eq heq.symm).symm (digit_ne_dash d hdd)
        · next heq =>
            exact absurd (List.head_eq_of_cons_eq heq.symm).symm (digit_ne_plus d hdd)
        · simp [hd]
      simp [coerceKey, isInstInt, hguard, hint, Except.map]
  · intro ds hts hd hne
    have hl := lstrip_dash_replicate 1 ds hd hne
    simp only [List.replicate, List.cons_append, List.nil_append] at hl
    have hguard : pyIsDigitStr (pyLStripDash (pyStrip s)) = true := by
      simp [pyIsDigitStr, pyLStripDash, hts, hl, hd, hne]
    have hns : pyStripList ('-' :: ds) = '-' :: ds := by
      refine stripList_of_noSpace _ ?_
      have := noSpace_dashDigits 1 ds hd
      simpa using this
    have hint : pyIntOfString (pyStrip s) = Except.ok (-(digitsVal ds : Int)) := by
      simp only [pyIntOfString, hts, hns]
      simp [hd, hne]
    simp [coerceKey, isInstInt, hguard, hint, Except.map]
  · intro m ds hts hm hd hne
    obtain ⟨m2, rfl⟩ : ∃ m2, m = m2 + 2 := ⟨m - 2, by omega⟩
    have hl := lstrip_dash_replicate (m2 + 2) ds hd hne
    have hguard : pyIsDigitStr (pyLStripDash (pyStrip s)) = true := by
      simp [pyIsDigitStr, pyLStripDash, hts, hl, hd, hne]
    have hns : pyStripList (List.replicate (m2 + 2) '-' ++ ds) =
        List.replicate (m2 + 2) '-' ++ ds :=
      stripList_of_noSpace _ (noSpace_dashDigits (m2 + 2) ds hd)
    have hint : pyIntOfString (pyStrip s) =
        Except.error (invalidLiteralMsg (pyStrip s)) := by
      have hts2 : (pyStrip s).data = '-' :: '-' :: (List.replicate m2 '-' ++ ds) := by
        simpa [List.replicate_succ] using hts
      have hns2 : pyStripList ('-' :: '-' :: (List.replicate m2 '-' ++ ds)) =
          '-' :: '-' :: (List.replicate m2 '-' ++ ds) := by
        simpa [List.replicate_succ] using hns
      simp only [pyIntOfString, hts2, hns2]
      rw [if_neg]
      intro hcond
      rw [Bool.and_eq_true, List.all_cons, Bool.and_eq_true] at hcond
      exact absurd hcond.2.1 (by decide)
    simp [coerceKey, isInstInt, hguard, hint, Except.map]

/-- C9 counterexample.  The claim says every coercion failure surfaces as
a validation error identifying the offending key and expected type.  The
string --5 is not of the accepted optionally-negative-signed digit form,
so it must fail, but it passes the lstrip/isdigit pre-check and then
fails inside int(), so _coerce raises the generic invalid-literal
ValueError, whose text is not the key-and-type-identifying bad_int:n. -/
theorem c9_counterexample :
    coerce { schema := [("n", "int")], defaults := Option.none }
      [("n", PyVal.str "--5")] = Except.error (invalidLiteralMsg "--5") ∧
    invalidLiteralMsg "--5" ≠ "bad_int:n" := by
  refine ⟨rfl, by decide⟩

/-- Witness for c9_amended at concrete strings: a non-numeric string
fails with bad_int:n, plain and negative digit strings (with padding)
are accepted with their integer values, and the double-dash string fails
with the generic invalid-literal message. -/
theorem c9_witness :
    coerceKey "n" "int" (PyVal.str "x2") = Except.error "bad_int:n" ∧
    coerceKey "n" "int" (PyVal.str " 12 ") = Except.ok (PyVal.int 12) ∧
    coerceKey "n" "int" (PyVal.str "-5") = Except.ok (PyVal.int (-5)) ∧
    coerceKey "n" "int" (PyVal.str "--5") =
      Except.error (invalidLiteralMsg (pyStrip "--5")) := by
  refine ⟨?_, ?_, ?_, ?_⟩
  · exact (c9_amended "n" "x2").1 (by decide)
  · exact (c9_amended "n" " 12 ").2.1 ['1', '2'] (by decide) (by decide) (by decide)
  · exact (c9_amended "n" "-5").2.2.1 ['5'] (by decide) (by decide) (by decide)
  · exact (c9_amended "n" "--5").2.2.2 2 ['5'] (by decide) (by decide)
      (by decide) (by decide)

end AgentTools
